import Mathlib

/-!
Shallow embedding of the usage-to-cost core of `agents-usage`
(files `src/pricing.ts`, `src/reporting/aggregate.ts`, `src/utils.ts`).

JavaScript finite doubles are modelled as rationals; the JavaScript
values NaN, Infinity and -Infinity are the extra constructors of
`JsNum`.  A JSON object field of unknown type is a `JsVal`.  A JavaScript
record from strings to pricing records is an association list in
insertion order, matching object-entry iteration order for the
non-integer-like string keys used by the pricing catalog.  JavaScript
set insertion order is modelled by `insertUnique`, which appends only
unseen elements.
-/

namespace AgentsUsage

/-- A JavaScript number: a finite double (as a rational) or one of the
non-finite values.  The finiteness test holds exactly for `num`. -/
inductive JsNum where
  | num (q : ℚ)
  | nan
  | inf
  | negInf
deriving DecidableEq

/-- Model of the JavaScript finiteness test on a `JsNum`. -/
def JsNum.isFinite : JsNum → Bool
  | .num _ => true
  | _ => false

/-- An arbitrary JSON/JavaScript value in a position typed `unknown`:
`nullish` is null/undefined/missing, `num` a finite number,
`nonFiniteNum` a non-finite number, `nonNum` any other value
(string, boolean, object, array). -/
inductive JsVal where
  | nullish
  | num (q : ℚ)
  | nonFiniteNum
  | nonNum
deriving DecidableEq

/-- Model of the JavaScript nullish-coalescing operator. -/
def jsCoalesce (a b : JsVal) : JsVal :=
  match a with
  | .nullish => b
  | v => v

/-- Model of `normalizeNumber` from `src/utils.ts`: a finite number
passes through, anything else (missing, null, non-number, NaN,
infinities) coerces to 0. -/
def normalizeNumber (value : JsVal) : ℚ :=
  match value with
  | .num q => q
  | _ => 0

/-! ### String helpers

ASCII-faithful models of the JavaScript string operations used by the
resolver (trim, lower-casing, substring containment, suffix test,
slicing).  The inputs this program feeds them (model identifiers and
catalog keys) are ASCII, where these agree with the JavaScript
semantics. -/

/-- ASCII whitespace recognised by the JavaScript string trim. -/
def isJsWhitespace (c : Char) : Bool :=
  c == ' ' || c == '\t' || c == '\n' || c == '\r' ||
    c == (Char.ofNat 11) || c == (Char.ofNat 12)

/-- Drop leading JS whitespace from a char list. -/
def trimLeading : List Char → List Char
  | [] => []
  | c :: cs => if isJsWhitespace c then trimLeading cs else c :: cs

/-- Model of the JavaScript string trim. -/
def jsTrim (s : String) : String :=
  String.mk ((trimLeading (trimLeading s.toList.reverse).reverse))

/-- Model of the JavaScript lower-casing (ASCII). -/
def jsToLower (s : String) : String :=
  String.mk (s.toList.map Char.toLower)

/-- Does `hay` start with `needle` (exact characters)? -/
def listStartsWith (needle hay : List Char) : Bool :=
  match needle, hay with
  | [], _ => true
  | _ :: _, [] => false
  | n :: ns, h :: hs => n == h && listStartsWith ns hs

/-- Does `hay` contain `needle` as a contiguous substring?  Models the
JavaScript substring-containment test. -/
def listContainsSub (needle hay : List Char) : Bool :=
  match hay with
  | [] => needle.isEmpty
  | _ :: hs => listStartsWith needle hay || listContainsSub needle hs

/-- Substring containment on strings: does `hay` include `needle`? -/
def jsIncludes (hay needle : String) : Bool :=
  listContainsSub needle.toList hay.toList

/-- Does string `s` end with `suffixStr`? -/
def jsEndsWith (s suffixStr : String) : Bool :=
  listStartsWith suffixStr.toList.reverse s.toList.reverse

/-- Case-insensitive character comparison (the regex `i` flag). -/
def charCI (a b : Char) : Bool :=
  a.toLower == b.toLower

/-- Match a literal pattern case-insensitively at the head of the
input; on success return the consumed original characters and the rest. -/
def stripCI : List Char → List Char → Option (List Char × List Char)
  | [], s => some ([], s)
  | _ :: _, [] => none
  | p :: ps, c :: cs =>
      if charCI p c then
        match stripCI ps cs with
        | some (consumed, rest) => some (c :: consumed, rest)
        | none => none
      else none

/-- Longest prefix of decimal digits (the one-or-more-digits regex
atom, which is greedy and here deterministic because the following
pattern character is never a digit), with the rest of the input. -/
def takeDigits : List Char → List Char × List Char
  | [] => ([], [])
  | c :: cs =>
      if c.isDigit then
        let (d, r) := takeDigits cs
        (c :: d, r)
      else ([], c :: cs)

/-- JS set insertion: append `x` only if it is not already present,
preserving insertion order. -/
def insertUnique (xs : List String) (x : String) : List String :=
  if xs.contains x then xs else xs ++ [x]

/-! ### Data model (`src/types.ts`, `src/pricing.ts`) -/

/-- Model of `SourceKind` from `src/types.ts`. -/
inductive SourceKind where
  | claude
  | codex
  | opencode
deriving DecidableEq

/-- Model of `PricingRecord` from `src/pricing.ts`: every field is an
optional JSON value of declared type number, so a present field may
still be non-finite or (if the cast lied) a non-number; `safeCost`
treats all of those as 0, which `Option JsNum` captures with `none` for
missing-or-non-number and the non-finite constructors for the rest. -/
structure PricingRecord where
  input_cost_per_token : Option JsNum := none
  output_cost_per_token : Option JsNum := none
  cache_creation_input_token_cost : Option JsNum := none
  cache_read_input_token_cost : Option JsNum := none
  input_cost_per_token_above_200k_tokens : Option JsNum := none
  output_cost_per_token_above_200k_tokens : Option JsNum := none
  cache_creation_input_token_cost_above_200k_tokens : Option JsNum := none
  cache_read_input_token_cost_above_200k_tokens : Option JsNum := none
deriving DecidableEq

/-- Model of `PricingMap` from `src/pricing.ts` (a record from catalog
keys to pricing records): an association list in insertion order. -/
abbrev PricingMap := List (String × PricingRecord)

/-- Property lookup on a `PricingMap`. -/
def mapLookup (pricingMap : PricingMap) (key : String) : Option PricingRecord :=
  (pricingMap.find? (fun kv => kv.1 == key)).map (fun kv => kv.2)

/-- Model of `UsageEntry` from `src/types.ts`.  Token counts are the
finite numbers produced by the loader, and the timestamp is modelled as
epoch milliseconds. -/
structure UsageEntry where
  source : SourceKind
  timestampMs : Int
  model : String
  provider : Option String := none
  inputTokens : ℚ
  outputTokens : ℚ
  cacheReadTokens : ℚ
  cacheWriteTokens : ℚ
  reasoningOutputTokens : ℚ
  costUSD : Option ℚ := none
deriving DecidableEq

/-! ### Model identifier resolution (`src/pricing.ts` lines 36-141 and
199-276) -/

/-- The static `MODEL_ALIASES` table (a JS map, insertion order). -/
def MODEL_ALIASES : List (String × String) :=
  [ ("gpt-5-codex", "gpt-5"),
    ("gpt-5-codex-high", "gpt-5"),
    ("gpt-5-codex-low", "gpt-5"),
    ("gpt-5-codex-max", "gpt-5"),
    ("gemini-3-pro-high", "gemini-3-pro-preview") ]

/-- Lookup in the `MODEL_ALIASES` table. -/
def modelAliasesGet (key : String) : Option String :=
  (MODEL_ALIASES.find? (fun kv => kv.1 == key)).map (fun kv => kv.2)

/-- The optional codex tail of the first regex in `maybeVersionAlias`:
a literal `-codex`, optionally followed by one of `-mini`, `-max`,
`-high`, `-low`, and then the end of the string, case-insensitively.
Returns the matched original characters (the capture) when the whole
rest of the input matches. -/
def codexSuffixMatch (l : List Char) : Option (List Char) :=
  match stripCI "-codex".toList l with
  | none => none
  | some (consumed, rest) =>
      match rest with
      | [] => some consumed
      | _ =>
          match stripCI "-mini".toList rest with
          | some (c2, []) => some (consumed ++ c2)
          | _ =>
              match stripCI "-max".toList rest with
              | some (c2, []) => some (consumed ++ c2)
              | _ =>
                  match stripCI "-high".toList rest with
                  | some (c2, []) => some (consumed ++ c2)
                  | _ =>
                      match stripCI "-low".toList rest with
                      | some (c2, []) => some (consumed ++ c2)
                      | _ => none

/-- The first regex of `maybeVersionAlias` (anchored, case-insensitive):
`gpt-`, digits (captured with the `gpt-` head as the major part), a dot,
digits, then the codex tail (captured).  On a match, the alias is the
major capture followed by the codex-tail capture, in original case. -/
def codexVersionAlias (model : String) : Option String :=
  match stripCI "gpt-".toList model.toList with
  | none => none
  | some (pre, rest1) =>
      let (d1, rest2) := takeDigits rest1
      if d1.isEmpty then none
      else
        match rest2 with
        | '.' :: rest3 =>
            let (d2, rest4) := takeDigits rest3
            if d2.isEmpty then none
            else
              match codexSuffixMatch rest4 with
              | some suffixChars => some (String.mk (pre ++ d1 ++ suffixChars))
              | none => none
        | _ => none

/-- The second regex of `maybeVersionAlias` (anchored,
case-insensitive): `gpt-`, digits (captured with the `gpt-` head), a
dot, digits, end of string.  On a match, the major capture in original
case. -/
def gptVersionAlias (model : String) : Option String :=
  match stripCI "gpt-".toList model.toList with
  | none => none
  | some (pre, rest1) =>
      let (d1, rest2) := takeDigits rest1
      if d1.isEmpty then none
      else
        match rest2 with
        | '.' :: rest3 =>
            let (d2, rest4) := takeDigits rest3
            if d2.isEmpty then none
            else
              match rest4 with
              | [] => some (String.mk (pre ++ d1))
              | _ => none
        | _ => none

/-- Model of `maybeVersionAlias` from `src/pricing.ts`: the version
aliases of a model string (dotted codex collapse, dotted minor-version
collapse, `-latest` strip), in JS set insertion order. -/
def maybeVersionAlias (model : String) : List String :=
  let a0 : List String := []
  let a1 :=
    match codexVersionAlias model with
    | some a => insertUnique a0 a
    | none => a0
  let a2 :=
    match gptVersionAlias model with
    | some a => insertUnique a1 a
    | none => a1
  if jsEndsWith model "-latest" then
    insertUnique a2 (String.mk (model.toList.take (model.toList.length - "-latest".length)))
  else a2

/-- Model of `modelVariants` from `src/pricing.ts`: the trimmed model,
its version aliases, and the static-alias image of that snapshot, in
insertion order. -/
def modelVariants (model : String) : List String :=
  let trimmed := jsTrim model
  let v0 : List String := if trimmed == "" then [] else insertUnique [] trimmed
  let v1 := (maybeVersionAlias trimmed).foldl insertUnique v0
  v1.foldl
    (fun acc candidate =>
      match modelAliasesGet candidate with
      | some explicitAlias => insertUnique acc explicitAlias
      | none => acc)
    v1

/-- Model of `toNonEmpty` from `src/pricing.ts`. -/
def toNonEmpty (value : Option String) : List String :=
  match value with
  | none => []
  | some v =>
      let trimmed := jsTrim v
      if trimmed == "" then [] else [trimmed]

/-- Model of `pricingCandidates` from `src/pricing.ts`: the variant set
plus the provider-prefixed candidates (the entry's own provider plus
origin-specific implicit providers), in insertion order. -/
def pricingCandidates (entry : UsageEntry) : List String :=
  let model := jsTrim entry.model
  let provider := entry.provider.map jsTrim
  let baseModels := modelVariants model
  let c0 := baseModels.foldl insertUnique []
  baseModels.foldl
    (fun acc baseModel =>
      let acc := (toNonEmpty provider).foldl
        (fun a providerKey => insertUnique a (providerKey ++ "/" ++ baseModel)) acc
      let acc :=
        if entry.source == SourceKind.claude then
          insertUnique (insertUnique acc ("anthropic/" ++ baseModel)) ("vertex_ai/" ++ baseModel)
        else acc
      if entry.source == SourceKind.codex then
        insertUnique
          (insertUnique (insertUnique acc ("openai/" ++ baseModel)) ("azure/" ++ baseModel))
          ("openrouter/openai/" ++ baseModel)
      else acc)
    c0

/-- Model of `resolvePricing` from `src/pricing.ts`: exact candidate
lookup, then the slash-candidate suffix fallback, then the
bidirectional-substring fuzzy fallback scored by the smaller of the two
lengths, ties broken by first-encountered order. -/
def resolvePricing (pricingMap : PricingMap) (entry : UsageEntry) :
    Option PricingRecord :=
  let candidates := pricingCandidates entry
  match candidates.findSome? (fun candidate => mapLookup pricingMap candidate) with
  | some record => some record
  | none =>
      let suffixes := candidates.map (fun candidate => "/" ++ candidate)
      match pricingMap.findSome?
          (fun kv =>
            if suffixes.any (fun suffixStr => jsEndsWith kv.1 suffixStr) then some kv.2
            else none) with
      | some record => some record
      | none =>
          let modelLower := jsToLower (jsTrim entry.model)
          let best := pricingMap.foldl
            (fun (best : Option (Nat × PricingRecord)) kv =>
              let keyLower := jsToLower kv.1
              let isMatch :=
                jsIncludes keyLower modelLower || jsIncludes modelLower keyLower
              if !isMatch then best
              else
                let score := min modelLower.toList.length keyLower.toList.length
                match best with
                | none => some (score, kv.2)
                | some (bestScore, _) =>
                    if score > bestScore then some (score, kv.2) else best)
            none
          best.map (fun b => b.2)

/-! ### Tiered cost calculation (`src/pricing.ts` lines 278-349) -/

/-- Model of `safeCost` from `src/pricing.ts`: a present finite number
passes through, everything else is 0. -/
def safeCost (value : Option JsNum) : ℚ :=
  match value with
  | some (.num q) => q
  | _ => 0

/-- Model of `calculateTieredCost` from `src/pricing.ts`.  The source
declares the threshold as a defaulted parameter of 200000; every call
site uses the default, which callers here pass explicitly.  The
token-count argument is a `JsNum` because the source first rejects
non-finite and non-positive counts; the arithmetic on the surviving
finite value is exact rational arithmetic. -/
def calculateTieredCost (totalTokens : JsNum) (basePrice tieredPrice : Option JsNum)
    (threshold : ℚ) : ℚ :=
  match totalTokens with
  | .num t =>
      if t ≤ 0 then 0
      else
        let base := safeCost basePrice
        let tiered := safeCost tieredPrice
        if t > threshold ∧ tiered > 0 then
          let below := min t threshold
          let above := max 0 (t - threshold)
          below * base + above * tiered
        else t * base
  | _ => 0

/-- Model of `estimateEntryCostUSD` from `src/pricing.ts`.  The final
finiteness guard of the source is always the first branch here because
rational arithmetic never overflows. -/
def estimateEntryCostUSD (pricingMap : PricingMap) (entry : UsageEntry) :
    Option ℚ :=
  match resolvePricing pricingMap entry with
  | none => none
  | some pricing =>
      let isCodexLikeInput := entry.source == SourceKind.codex
      let cacheRead :=
        if isCodexLikeInput then max (min entry.cacheReadTokens entry.inputTokens) 0
        else max entry.cacheReadTokens 0
      let nonCachedInput :=
        if isCodexLikeInput then max (entry.inputTokens - cacheRead) 0
        else max entry.inputTokens 0
      let cacheWrite := max entry.cacheWriteTokens 0
      let output :=
        max (entry.outputTokens +
          (if entry.source == SourceKind.codex then entry.reasoningOutputTokens else 0)) 0
      let total :=
        calculateTieredCost (.num nonCachedInput)
            pricing.input_cost_per_token
            pricing.input_cost_per_token_above_200k_tokens 200000 +
          calculateTieredCost (.num output)
            pricing.output_cost_per_token
            pricing.output_cost_per_token_above_200k_tokens 200000 +
          calculateTieredCost (.num cacheWrite)
            pricing.cache_creation_input_token_cost
            pricing.cache_creation_input_token_cost_above_200k_tokens 200000 +
          calculateTieredCost (.num cacheRead)
            pricing.cache_read_input_token_cost
            pricing.cache_read_input_token_cost_above_200k_tokens 200000
      some total

/-! ### Pricing catalog acquisition (`src/pricing.ts` lines 31-197)

The acquisition function performs input and output: it reads the cache
file (a read that yields null on a missing or unparseable file) and,
when not offline, attempts the network fetch (which yields null on any
network, timeout, status or shape failure, and writes the cache file on
success).  Those outcomes are the fields of `AcquireEnv`; the
observable side effects are returned in `AcquireEffects`. -/

/-- Model of `PricingSource` from `src/pricing.ts`. -/
inductive PricingSource where
  | freshCache
  | remote
  | staleCache
  | offlineCache
  | offlineEmpty
  | unavailable
deriving DecidableEq

/-- The parse result of the cache file when the read succeeded: the
`fetchedAt` field (absent or a string) and the `data` field
(absent/null or a catalog).  A parsed non-object value has both fields
`none`. -/
structure CacheJson where
  fetchedAt : Option String := none
  data : Option PricingMap := none

/-- The environment of one acquisition call: the parse result of the
cache file (`none` means missing or unparseable), what the network
fetch would return if attempted (`none` means any failure), the current
time, and the date parser (`none` models an invalid date). -/
structure AcquireEnv where
  cacheFile : Option CacheJson
  fetchResult : Option PricingMap
  nowMs : Int
  parseDateMs : String → Option Int

/-- The observable side effects of one acquisition call. -/
structure AcquireEffects where
  networkFetched : Bool
  cacheWritten : Option PricingMap
deriving DecidableEq

/-- Model of `PricingStatus` from `src/pricing.ts`; the `isEmpty` field
is the source's zero-key test on the catalog. -/
structure PricingStatus where
  pricingMap : PricingMap
  isEmpty : Bool
  source : PricingSource
deriving DecidableEq

/-- The cache freshness window from `src/pricing.ts` (24 hours in
milliseconds). -/
def CACHE_MAX_AGE_MS : Int := 1000 * 60 * 60 * 24

/-- Model of `isFresh` from `src/pricing.ts`, on the optional
`fetchedAt` field: a missing field or an unparseable string gives a
non-finite time, hence not fresh. -/
def isFresh (env : AcquireEnv) (fetchedAt : Option String) : Bool :=
  match fetchedAt with
  | none => false
  | some timestamp =>
      match env.parseDateMs timestamp with
      | none => false
      | some time => env.nowMs - time < CACHE_MAX_AGE_MS

/-- Model of `readCache` from `src/pricing.ts`: null unless the file
parsed to an object with non-null `data` and a fresh `fetchedAt`.  The
source returns the whole cache file; only its `data` is ever used, so
the model returns that. -/
def readCache (env : AcquireEnv) : Option PricingMap :=
  match env.cacheFile with
  | none => none
  | some cached =>
      match cached.data with
      | none => none
      | some d => if isFresh env cached.fetchedAt then some d else none

/-- An empty `PricingStatus` with the given source tag. -/
def emptyStatus (source : PricingSource) : PricingStatus :=
  { pricingMap := [], isEmpty := true, source := source }

/-- Model of `loadPricingStatus` from `src/pricing.ts`, paired with its
observable side effects.  The offline branch re-reads the raw cache
file and keys only on the `data` field being non-null; the online
branch tries the fetch (which writes the cache on success), then the
fresh cache read from the start of the call, then a raw re-read, then
gives up. -/
def loadPricingStatus (env : AcquireEnv) (offline : Bool) :
    PricingStatus × AcquireEffects :=
  let cached := readCache env
  if offline then
    match env.cacheFile with
    | some stale =>
        (match stale.data with
         | some d =>
             ({ pricingMap := d, isEmpty := d.isEmpty, source := .offlineCache },
              { networkFetched := false, cacheWritten := none })
         | none =>
             (emptyStatus .offlineEmpty,
              { networkFetched := false, cacheWritten := none }))
    | none =>
        (emptyStatus .offlineEmpty,
         { networkFetched := false, cacheWritten := none })
  else
    match env.fetchResult with
    | some fetched =>
        ({ pricingMap := fetched, isEmpty := fetched.isEmpty, source := .remote },
         { networkFetched := true, cacheWritten := some fetched })
    | none =>
        match cached with
        | some d =>
            ({ pricingMap := d, isEmpty := d.isEmpty, source := .freshCache },
             { networkFetched := true, cacheWritten := none })
        | none =>
            match env.cacheFile with
            | some stale =>
                (match stale.data with
                 | some d =>
                     ({ pricingMap := d, isEmpty := d.isEmpty, source := .staleCache },
                      { networkFetched := true, cacheWritten := none })
                 | none =>
                     (emptyStatus .unavailable,
                      { networkFetched := true, cacheWritten := none }))
            | none =>
                (emptyStatus .unavailable,
                 { networkFetched := true, cacheWritten := none })

/-! ### Cumulative usage delta reconstruction
(`src/reporting/aggregate.ts`, the Codex half) -/

/-- Model of `CodexRawUsage` from `src/reporting/aggregate.ts`: the
normalized snapshot, all fields finite numbers. -/
structure CodexRawUsage where
  input_tokens : ℚ
  cached_input_tokens : ℚ
  output_tokens : ℚ
  reasoning_output_tokens : ℚ
  total_tokens : ℚ
deriving DecidableEq

/-- A raw usage object as found in a log line, before normalization:
each field an arbitrary JSON value. -/
structure CodexRawUsageJson where
  input_tokens : JsVal := .nullish
  cached_input_tokens : JsVal := .nullish
  cache_read_input_tokens : JsVal := .nullish
  output_tokens : JsVal := .nullish
  reasoning_output_tokens : JsVal := .nullish
  total_tokens : JsVal := .nullish
deriving DecidableEq

/-- Model of `normalizeCodexRawUsage` from
`src/reporting/aggregate.ts`, on a value that parsed to an object (the
source returns null for non-objects before reaching this arithmetic).
The cached count coalesces `cached_input_tokens` with
`cache_read_input_tokens`; a non-positive or unusable reported total is
replaced by input plus output. -/
def normalizeCodexRawUsage (record : CodexRawUsageJson) : CodexRawUsage :=
  let input := normalizeNumber record.input_tokens
  let cached := normalizeNumber (jsCoalesce record.cached_input_tokens record.cache_read_input_tokens)
  let output := normalizeNumber record.output_tokens
  let reasoning := normalizeNumber record.reasoning_output_tokens
  let total := normalizeNumber record.total_tokens
  { input_tokens := input,
    cached_input_tokens := cached,
    output_tokens := output,
    reasoning_output_tokens := reasoning,
    total_tokens := if total > 0 then total else input + output }

/-- Model of `subtractCodexUsage` from `src/reporting/aggregate.ts`:
field-wise clamped subtraction, with a null previous read as all
zeros. -/
def subtractCodexUsage (current : CodexRawUsage) (previous : Option CodexRawUsage) :
    CodexRawUsage :=
  let prev := fun (f : CodexRawUsage → ℚ) =>
    match previous with
    | some p => f p
    | none => 0
  { input_tokens := max (current.input_tokens - prev (·.input_tokens)) 0,
    cached_input_tokens := max (current.cached_input_tokens - prev (·.cached_input_tokens)) 0,
    output_tokens := max (current.output_tokens - prev (·.output_tokens)) 0,
    reasoning_output_tokens :=
      max (current.reasoning_output_tokens - prev (·.reasoning_output_tokens)) 0,
    total_tokens := max (current.total_tokens - prev (·.total_tokens)) 0 }

/-- One parsed JSONL line of a Codex session, after the shape checks of
`loadCodexEntries`: a turn-context line (with the model extracted from
its payload, if any), a token-count event line (with its timestamp when
present and parseable to a valid date, its last and total usage objects
when they parsed to objects, and the model extracted from the
payload or info, if any), or any other line, which is skipped. -/
inductive CodexLine where
  | turnContext (contextModel : Option String)
  | tokenCount (timestampMs : Option Int)
      (lastUsage totalUsage : Option CodexRawUsageJson)
      (payloadModel : Option String)
  | otherLine

/-- The per-stream mutable state of the `loadCodexEntries` loop. -/
structure CodexScanState where
  previousTotals : Option CodexRawUsage
  currentModel : Option String

/-- The tail of the token-count branch of `loadCodexEntries`: update
the current model from the payload, pick the entry model (payload
model, else stream model, else the fixed fallback), cap cache reads at
input, and emit the entry unless its four billable fields sum to
zero. -/
def emitCodexEntry (st : CodexScanState) (rawUsage : CodexRawUsage)
    (payloadModel : Option String) (timestampMs : Int) :
    CodexScanState × List UsageEntry :=
  let st :=
    match payloadModel with
    | some m => { st with currentModel := some m }
    | none => st
  let model :=
    match payloadModel with
    | some m => m
    | none =>
        match st.currentModel with
        | some m => m
        | none => "gpt-5"
  let inputTokens := rawUsage.input_tokens
  let cacheReadTokens := min rawUsage.cached_input_tokens inputTokens
  let outputTokens := rawUsage.output_tokens
  let reasoningOutputTokens := rawUsage.reasoning_output_tokens
  if inputTokens + outputTokens + cacheReadTokens + reasoningOutputTokens = 0 then
    (st, [])
  else
    (st,
      [{ source := .codex,
         timestampMs := timestampMs,
         model := model,
         inputTokens := inputTokens,
         outputTokens := outputTokens,
         cacheReadTokens := cacheReadTokens,
         cacheWriteTokens := 0,
         reasoningOutputTokens := reasoningOutputTokens,
         costUSD := none }])

/-- One iteration of the `loadCodexEntries` line loop: the new scan
state and the usage entries emitted for this line (zero or one).  A
token-count line with a usable total snapshot updates the previous
totals before the emission decision; a line with only a last (already
delta) snapshot passes it through without touching the totals
baseline. -/
def loadCodexStep (st : CodexScanState) (line : CodexLine) :
    CodexScanState × List UsageEntry :=
  match line with
  | .turnContext contextModel =>
      (match contextModel with
       | some m => ({ st with currentModel := some m }, [])
       | none => (st, []))
  | .otherLine => (st, [])
  | .tokenCount timestampMs lastUsage totalUsage payloadModel =>
      match timestampMs with
      | none => (st, [])
      | some ts =>
          match totalUsage.map normalizeCodexRawUsage with
          | some totalN =>
              let rawUsage := subtractCodexUsage totalN st.previousTotals
              emitCodexEntry { st with previousTotals := some totalN } rawUsage payloadModel ts
          | none =>
              match lastUsage.map normalizeCodexRawUsage with
              | some lastN => emitCodexEntry st lastN payloadModel ts
              | none => (st, [])

/-- The whole `loadCodexEntries` line loop for one session file,
starting from null previous totals and no current model. -/
def loadCodexLines (lines : List CodexLine) : List UsageEntry :=
  (lines.foldl
    (fun (acc : CodexScanState × List UsageEntry) line =>
      let (st, out) := loadCodexStep acc.1 line
      (st, acc.2 ++ out))
    (⟨none, none⟩, [])).2

/-! ### Concrete instances used by witnesses and counterexamples -/

/-- The record stored under the shorter catalog key in the C1 scenario
(an arbitrary rate distinguishing it from the other record). -/
def gpt4Record : PricingRecord :=
  { input_cost_per_token := some (JsNum.num 3) }

/-- The record stored under the longer catalog key in the C1 scenario. -/
def gpt4TurboRecord : PricingRecord :=
  { input_cost_per_token := some (JsNum.num 1) }

/-- The C1 entry: raw model string `gpt-4-turbo-preview`. -/
def c1Entry : UsageEntry :=
  { source := SourceKind.codex, timestampMs := 0, model := "gpt-4-turbo-preview",
    inputTokens := 0, outputTokens := 0, cacheReadTokens := 0,
    cacheWriteTokens := 0, reasoningOutputTokens := 0 }

/-- The C2 counterexample environment: cache file present and
parseable, its `data` field an empty catalog. -/
def c2EmptyCacheEnv : AcquireEnv :=
  { cacheFile := some { fetchedAt := some "2020-01-01T00:00:00.000Z", data := some [] },
    fetchResult := none, nowMs := 0, parseDateMs := fun _ => none }

/-- The cache file of the C2 witness environment. -/
def c2WitnessCache : CacheJson :=
  { fetchedAt := none, data := some [("openai/gpt-4", gpt4Record)] }

/-- A populated offline cache environment for the C2 witness. -/
def c2WitnessEnv : AcquireEnv :=
  { cacheFile := some c2WitnessCache, fetchResult := none, nowMs := 0,
    parseDateMs := fun _ => none }

/-- A codex-origin entry resolving exactly to the `openai/gpt-4`
catalog key, for the C4 witness. -/
def c4WitnessEntry : UsageEntry :=
  { source := SourceKind.codex, timestampMs := 0, model := "gpt-4",
    inputTokens := 3, outputTokens := 2, cacheReadTokens := 1,
    cacheWriteTokens := 0, reasoningOutputTokens := 4 }

/-- The catalog for the C4 witness. -/
def c4WitnessMap : PricingMap := [("openai/gpt-4", gpt4Record)]

/-- The cache file of the C5 witness environment, with a timestamp the
witness date parser reads as fresh. -/
def c5WitnessCache : CacheJson :=
  { fetchedAt := some "2024-01-01T00:00:00.000Z",
    data := some [("openai/gpt-4", gpt4Record)] }

/-- A fresh-cache environment whose network fetch fails, for the C5
witness. -/
def c5WitnessEnv : AcquireEnv :=
  { cacheFile := some c5WitnessCache, fetchResult := none, nowMs := 0,
    parseDateMs := fun _ => some 0 }

/-- A raw codex usage object with no reported total, for the C10
witness. -/
def c10WitnessRecord : CodexRawUsageJson :=
  { input_tokens := JsVal.num 3, output_tokens := JsVal.num 4 }

/-! ### Helper lemmas -/

/-- The code's positivity test on a sanitized rate holds exactly when
the raw rate is a present, finite, positive number. -/
lemma safeCost_pos_iff (v : Option JsNum) :
    0 < safeCost v ↔ ∃ h : ℚ, v = some (JsNum.num h) ∧ 0 < h := by
  rcases v with _ | n
  · simp [safeCost]
  · cases n <;> simp [safeCost]

/-- Emission never changes the previous-totals baseline. -/
lemma emitCodexEntry_fst_previousTotals (st : CodexScanState) (raw : CodexRawUsage)
    (pm : Option String) (ts : Int) :
    (emitCodexEntry st raw pm ts).1.previousTotals = st.previousTotals := by
  unfold emitCodexEntry
  cases pm <;> dsimp <;> split <;> rfl

/-- Subtracting a snapshot from itself yields the all-zero delta. -/
lemma subtractCodexUsage_self (t : CodexRawUsage) :
    subtractCodexUsage t (some t) =
      { input_tokens := 0, cached_input_tokens := 0, output_tokens := 0,
        reasoning_output_tokens := 0, total_tokens := 0 } := by
  simp [subtractCodexUsage]

/-- An all-zero delta is never emitted as a usage entry. -/
lemma emitCodexEntry_zero (st : CodexScanState) (pm : Option String) (ts : Int) :
    (emitCodexEntry st
      { input_tokens := 0, cached_input_tokens := 0, output_tokens := 0,
        reasoning_output_tokens := 0, total_tokens := 0 } pm ts).2 = [] := by
  unfold emitCodexEntry
  cases pm <;> simp

/-! ### Claim theorems -/

/-- Claim C1, counterexample: with a catalog containing exactly the
keys `openai/gpt-4` and `openai/gpt-4-turbo` and an entry whose model
string is `gpt-4-turbo-preview`, resolution does NOT succeed: the fuzzy
fallback compares the full provider-qualified key with the bare model
string in both containment directions, neither holds, and
`resolvePricing` returns null — contradicting the claim that it returns
the record stored under `openai/gpt-4-turbo`. -/
theorem c1_counterexample :
    resolvePricing [("openai/gpt-4", gpt4Record), ("openai/gpt-4-turbo", gpt4TurboRecord)]
      c1Entry = none := by
  decide

/-- Claim C1, amended: for a catalog containing exactly the unprefixed
keys `gpt-4` and `gpt-4-turbo` and an entry whose model string is
`gpt-4-turbo-preview` (no exact or suffix tier hit), resolution
succeeds via the fuzzy fallback and returns the record stored under
`gpt-4-turbo`: the longer overlapping key wins over the shorter. -/
theorem c1_amended_fuzzy_tiebreak :
    resolvePricing [("gpt-4", gpt4Record), ("gpt-4-turbo", gpt4TurboRecord)] c1Entry =
      some gpt4TurboRecord := by
  decide

/-- Claim C2, counterexample: in offline mode, a cache file that is
present and parseable but contains an EMPTY catalog is returned tagged
`offline-cache`, not `offline-empty` as the claim requires — the code
only tests that the `data` field is non-null, not that the catalog is
non-empty. -/
theorem c2_counterexample :
    (loadPricingStatus c2EmptyCacheEnv true).1.source = PricingSource.offlineCache ∧
      PricingSource.offlineCache ≠ PricingSource.offlineEmpty :=
  ⟨rfl, by decide⟩

/-- Claim C2, amended: when acquisition is called with offline set, the
on-disk cache file is read regardless of age and its catalog is
returned tagged `offline-cache` whenever the file is present,
parseable, and carries a non-null `data` field (even when that catalog
is empty — the `isEmpty` flag records the emptiness); in every other
case (file absent, unparseable, or without a usable `data` field) an
empty catalog tagged `offline-empty` is returned; no network access and
no cache write occur in either case. -/
theorem c2_amended_offline (env : AcquireEnv) :
    (loadPricingStatus env true).2 = { networkFetched := false, cacheWritten := none } ∧
    (∀ c d, env.cacheFile = some c → c.data = some d →
      (loadPricingStatus env true).1 =
        { pricingMap := d, isEmpty := d.isEmpty, source := PricingSource.offlineCache }) ∧
    ((env.cacheFile = none ∨ ∃ c, env.cacheFile = some c ∧ c.data = none) →
      (loadPricingStatus env true).1 = emptyStatus PricingSource.offlineEmpty) := by
  refine ⟨?_, ?_, ?_⟩
  · unfold loadPricingStatus
    rcases hc : env.cacheFile with _ | stale
    · simp [hc]
    · rcases hd : stale.data with _ | d <;> simp [hc, hd]
  · intro c d hc hd
    unfold loadPricingStatus
    simp [hc, hd]
  · rintro (hc | ⟨c, hc, hd⟩) <;> unfold loadPricingStatus <;> simp [hc]
    simp [hd]

theorem c2_amended_offline_witness :
    (loadPricingStatus c2WitnessEnv true).1 =
      { pricingMap := [("openai/gpt-4", gpt4Record)],
        isEmpty := ([("openai/gpt-4", gpt4Record)] : PricingMap).isEmpty,
        source := PricingSource.offlineCache } :=
  (c2_amended_offline c2WitnessEnv).2.1 _ _ rfl rfl

/-- Claim C3: for every token count and rate pair at threshold 200000,
a non-finite or non-positive token count yields cost 0; a count above
the threshold with a positive finite high rate yields the two-tier sum
(the portion at or below threshold at the base rate, the portion above
at the high rate); otherwise the cost is the count times the base rate,
a missing or non-finite rate being treated as 0 (which is exactly
`safeCost`). -/
theorem c3_tiered_cost (t : JsNum) (base high : Option JsNum) :
    ((t.isFinite = false ∨ ∃ q : ℚ, t = JsNum.num q ∧ q ≤ 0) →
        calculateTieredCost t base high 200000 = 0) ∧
    (∀ q : ℚ, t = JsNum.num q → 200000 < q →
        (∃ h : ℚ, high = some (JsNum.num h) ∧ 0 < h) →
        calculateTieredCost t base high 200000 =
          min q 200000 * safeCost base + max 0 (q - 200000) * safeCost high) ∧
    (∀ q : ℚ, t = JsNum.num q → 0 < q →
        ¬(200000 < q ∧ ∃ h : ℚ, high = some (JsNum.num h) ∧ 0 < h) →
        calculateTieredCost t base high 200000 = q * safeCost base) := by
  refine ⟨?_, ?_, ?_⟩
  · rintro (hf | ⟨q, rfl, hq⟩)
    · cases t <;> simp_all [calculateTieredCost, JsNum.isFinite]
    · simp [calculateTieredCost, hq]
  · rintro q rfl hq hh
    have hpos : 0 < safeCost high := (safeCost_pos_iff high).mpr hh
    have hq0 : ¬ q ≤ 0 := by linarith
    simp [calculateTieredCost, hq0, hq, hpos]
  · rintro q rfl hq hnot
    have hq0 : ¬ q ≤ 0 := not_le.mpr hq
    have hno : ¬(q > 200000 ∧ safeCost high > 0) := by
      rintro ⟨h1, h2⟩
      exact hnot ⟨h1, (safeCost_pos_iff high).mp h2⟩
    simp [calculateTieredCost, hq0, hno]

theorem c3_tiered_cost_witness :
    calculateTieredCost (JsNum.num 300000) (some (JsNum.num 2)) (some (JsNum.num 3)) 200000 =
      min (300000 : ℚ) 200000 * safeCost (some (JsNum.num 2)) +
        max 0 ((300000 : ℚ) - 200000) * safeCost (some (JsNum.num 3)) :=
  (c3_tiered_cost (JsNum.num 300000) (some (JsNum.num 2)) (some (JsNum.num 3))).2.1
    300000 rfl (by norm_num) ⟨3, rfl, by norm_num⟩

/-- Claim C4: when resolution succeeds, per-entry cost estimation
derives the four billed buckets by origin and sums their tiered costs.
For a codex-origin entry, cache-read tokens are first capped to not
exceed input tokens (and floored at 0), the capped amount is subtracted
from input before billing input, and reasoning-output tokens are added
to output; for a claude-origin entry, cache-read tokens are billed in
addition to the full input count and reasoning-output is not added. -/
theorem c4_entry_cost_buckets (pm : PricingMap) (e : UsageEntry) (p : PricingRecord)
    (hres : resolvePricing pm e = some p) :
    (e.source = SourceKind.codex →
      estimateEntryCostUSD pm e = some (
        calculateTieredCost
            (JsNum.num (max (e.inputTokens - max (min e.cacheReadTokens e.inputTokens) 0) 0))
            p.input_cost_per_token p.input_cost_per_token_above_200k_tokens 200000 +
          calculateTieredCost (JsNum.num (max (e.outputTokens + e.reasoningOutputTokens) 0))
            p.output_cost_per_token p.output_cost_per_token_above_200k_tokens 200000 +
          calculateTieredCost (JsNum.num (max e.cacheWriteTokens 0))
            p.cache_creation_input_token_cost
            p.cache_creation_input_token_cost_above_200k_tokens 200000 +
          calculateTieredCost (JsNum.num (max (min e.cacheReadTokens e.inputTokens) 0))
            p.cache_read_input_token_cost
            p.cache_read_input_token_cost_above_200k_tokens 200000)) ∧
    (e.source = SourceKind.claude →
      estimateEntryCostUSD pm e = some (
        calculateTieredCost (JsNum.num (max e.inputTokens 0))
            p.input_cost_per_token p.input_cost_per_token_above_200k_tokens 200000 +
          calculateTieredCost (JsNum.num (max e.outputTokens 0))
            p.output_cost_per_token p.output_cost_per_token_above_200k_tokens 200000 +
          calculateTieredCost (JsNum.num (max e.cacheWriteTokens 0))
            p.cache_creation_input_token_cost
            p.cache_creation_input_token_cost_above_200k_tokens 200000 +
          calculateTieredCost (JsNum.num (max e.cacheReadTokens 0))
            p.cache_read_input_token_cost
            p.cache_read_input_token_cost_above_200k_tokens 200000)) := by
  constructor <;> intro hs <;> unfold estimateEntryCostUSD <;> rw [hres] <;>
    simp [hs]

theorem c4_entry_cost_buckets_witness :
    estimateEntryCostUSD c4WitnessMap c4WitnessEntry = some (
      calculateTieredCost
          (JsNum.num (max (c4WitnessEntry.inputTokens -
            max (min c4WitnessEntry.cacheReadTokens c4WitnessEntry.inputTokens) 0) 0))
          gpt4Record.input_cost_per_token
          gpt4Record.input_cost_per_token_above_200k_tokens 200000 +
        calculateTieredCost
          (JsNum.num (max (c4WitnessEntry.outputTokens + c4WitnessEntry.reasoningOutputTokens) 0))
          gpt4Record.output_cost_per_token
          gpt4Record.output_cost_per_token_above_200k_tokens 200000 +
        calculateTieredCost (JsNum.num (max c4WitnessEntry.cacheWriteTokens 0))
          gpt4Record.cache_creation_input_token_cost
          gpt4Record.cache_creation_input_token_cost_above_200k_tokens 200000 +
        calculateTieredCost
          (JsNum.num (max (min c4WitnessEntry.cacheReadTokens c4WitnessEntry.inputTokens) 0))
          gpt4Record.cache_read_input_token_cost
          gpt4Record.cache_read_input_token_cost_above_200k_tokens 200000) :=
  (c4_entry_cost_buckets c4WitnessMap c4WitnessEntry gpt4Record (by decide)).1 rfl

/-- Claim C5: when acquisition runs with offline unset and the network
fetch fails, the result is the cached catalog tagged `fresh-cache` if
the initial cache read found a usable cache (non-null data with a
`fetchedAt` within the 24-hour window); otherwise the cache file
contents tagged `stale-cache` if the file is present, parseable, and
carries a non-null `data` field; otherwise an empty catalog tagged
`unavailable`.  The model is a total function, so no exception reaches
the caller in any of these cases. -/
theorem c5_fetch_failure_fallback (env : AcquireEnv) (hfail : env.fetchResult = none) :
    (∀ d, readCache env = some d →
      (loadPricingStatus env false).1 =
        { pricingMap := d, isEmpty := d.isEmpty, source := PricingSource.freshCache }) ∧
    (readCache env = none → ∀ c d, env.cacheFile = some c → c.data = some d →
      (loadPricingStatus env false).1 =
        { pricingMap := d, isEmpty := d.isEmpty, source := PricingSource.staleCache }) ∧
    (readCache env = none →
      (env.cacheFile = none ∨ ∃ c, env.cacheFile = some c ∧ c.data = none) →
      (loadPricingStatus env false).1 = emptyStatus PricingSource.unavailable) := by
  refine ⟨?_, ?_, ?_⟩
  · intro d hfresh
    unfold loadPricingStatus
    simp [hfail, hfresh]
  · intro hmiss c d hc hd
    unfold loadPricingStatus
    simp [hfail, hmiss, hc, hd]
  · rintro hmiss (hc | ⟨c, hc, hd⟩) <;> unfold loadPricingStatus <;>
      simp [hfail, hmiss, hc]
    simp [hd]

theorem c5_fetch_failure_fallback_witness :
    (loadPricingStatus c5WitnessEnv false).1 =
      { pricingMap := [("openai/gpt-4", gpt4Record)],
        isEmpty := ([("openai/gpt-4", gpt4Record)] : PricingMap).isEmpty,
        source := PricingSource.freshCache } :=
  (c5_fetch_failure_fallback c5WitnessEnv rfl).1 _ rfl

/-- Claim C6: for every pair of snapshots fed to the delta
reconstructor — including a current whose totals are smaller than the
previous ones, as after a stream restart — every field of the
reconstructed delta is the clamped difference of current and previous
(their difference, or 0 if that is negative), and is therefore never
negative. -/
theorem c6_subtract_clamped (current previous : CodexRawUsage) :
    subtractCodexUsage current (some previous) =
      { input_tokens := max (current.input_tokens - previous.input_tokens) 0,
        cached_input_tokens := max (current.cached_input_tokens - previous.cached_input_tokens) 0,
        output_tokens := max (current.output_tokens - previous.output_tokens) 0,
        reasoning_output_tokens :=
          max (current.reasoning_output_tokens - previous.reasoning_output_tokens) 0,
        total_tokens := max (current.total_tokens - previous.total_tokens) 0 } ∧
    (0 ≤ (subtractCodexUsage current (some previous)).input_tokens ∧
      0 ≤ (subtractCodexUsage current (some previous)).cached_input_tokens ∧
      0 ≤ (subtractCodexUsage current (some previous)).output_tokens ∧
      0 ≤ (subtractCodexUsage current (some previous)).reasoning_output_tokens ∧
      0 ≤ (subtractCodexUsage current (some previous)).total_tokens) :=
  ⟨rfl, le_max_right _ _, le_max_right _ _, le_max_right _ _, le_max_right _ _,
    le_max_right _ _⟩

/-- Claim C7: feeding the same cumulative-total snapshot twice in a row
to the delta reconstructor — two consecutive token-count lines carrying
the same total usage object, from any starting state — makes the first
occurrence the new baseline, yields an all-zero delta on the second
occurrence, and drops that second occurrence: no usage entry is emitted
for it. -/
theorem c7_duplicate_snapshot_dropped (st0 : CodexScanState) (j : CodexRawUsageJson)
    (ts1 ts2 : Int) (last1 last2 : Option CodexRawUsageJson) (pm1 pm2 : Option String) :
    (loadCodexStep st0 (CodexLine.tokenCount (some ts1) last1 (some j) pm1)).1.previousTotals =
        some (normalizeCodexRawUsage j) ∧
    subtractCodexUsage (normalizeCodexRawUsage j) (some (normalizeCodexRawUsage j)) =
        { input_tokens := 0, cached_input_tokens := 0, output_tokens := 0,
          reasoning_output_tokens := 0, total_tokens := 0 } ∧
    (loadCodexStep (loadCodexStep st0 (CodexLine.tokenCount (some ts1) last1 (some j) pm1)).1
        (CodexLine.tokenCount (some ts2) last2 (some j) pm2)).2 = [] := by
  have h1 : (loadCodexStep st0
      (CodexLine.tokenCount (some ts1) last1 (some j) pm1)).1.previousTotals =
      some (normalizeCodexRawUsage j) := by
    show (emitCodexEntry { st0 with previousTotals := some (normalizeCodexRawUsage j) }
        (subtractCodexUsage (normalizeCodexRawUsage j) st0.previousTotals)
        pm1 ts1).1.previousTotals = some (normalizeCodexRawUsage j)
    rw [emitCodexEntry_fst_previousTotals]
  refine ⟨h1, subtractCodexUsage_self _, ?_⟩
  revert h1
  generalize (loadCodexStep st0 (CodexLine.tokenCount (some ts1) last1 (some j) pm1)).1 = st1
  intro h1
  show (emitCodexEntry { st1 with previousTotals := some (normalizeCodexRawUsage j) }
      (subtractCodexUsage (normalizeCodexRawUsage j) st1.previousTotals) pm2 ts2).2 = []
  rw [h1, subtractCodexUsage_self]
  exact emitCodexEntry_zero _ _ _

/-- Claim C8: variant expansion of the raw model string produces the
version aliases the specification names: for input `gpt-5.1-codex-high`
the candidate set contains `gpt-5-codex-high`, and for input
`claude-3.5-sonnet-latest` the candidate set contains
`claude-3.5-sonnet`. -/
theorem c8_version_alias_expansion :
    "gpt-5-codex-high" ∈ modelVariants "gpt-5.1-codex-high" ∧
    "claude-3.5-sonnet" ∈ modelVariants "claude-3.5-sonnet-latest" := by
  decide

/-- Claim C9: for every status returned by catalog acquisition — any
offline flag, any cache or fetch outcome — the `isEmpty` field is true
exactly when the returned catalog mapping contains zero keys. -/
theorem c9_isEmpty_invariant (env : AcquireEnv) (offline : Bool) :
    ((loadPricingStatus env offline).1.isEmpty = true ↔
      (loadPricingStatus env offline).1.pricingMap = []) := by
  unfold loadPricingStatus
  cases offline <;> simp only [Bool.false_eq_true, if_false, if_true, reduceIte]
  · rcases env.fetchResult with _ | fetched
    · rcases hc : readCache env with _ | d
      · rcases env.cacheFile with _ | stale
        · simp [emptyStatus]
        · rcases hd : stale.data with _ | d
          · simp [hd, emptyStatus]
          · simp [hd, List.isEmpty_iff]
      · simp [hc, List.isEmpty_iff]
    · simp [List.isEmpty_iff]
  · rcases env.cacheFile with _ | stale
    · simp [emptyStatus]
    · rcases hd : stale.data with _ | d
      · simp [hd, emptyStatus]
      · simp [hd, List.isEmpty_iff]

/-- Claim C10: when a raw codex usage snapshot is normalized and its
reported total is missing, non-numeric, non-finite, or at most 0, the
normalized total is synthesized as the normalized input plus the
normalized output, rather than coerced to 0 like the other fields. -/
theorem c10_total_synthesis (record : CodexRawUsageJson)
    (h : ∀ q : ℚ, record.total_tokens = JsVal.num q → q ≤ 0) :
    (normalizeCodexRawUsage record).total_tokens =
      (normalizeCodexRawUsage record).input_tokens +
        (normalizeCodexRawUsage record).output_tokens := by
  unfold normalizeCodexRawUsage
  rcases hv : record.total_tokens with _ | q | _ | _ <;>
    simp [normalizeNumber, hv]
  have := h q hv
  intro hq
  linarith

theorem c10_total_synthesis_witness :
    (normalizeCodexRawUsage c10WitnessRecord).total_tokens =
      (normalizeCodexRawUsage c10WitnessRecord).input_tokens +
        (normalizeCodexRawUsage c10WitnessRecord).output_tokens :=
  c10_total_synthesis c10WitnessRecord (fun _ hq => JsVal.noConfusion hq)

end AgentsUsage
